import Mathlib

/-!
Shallow embedding of the ss-utopia-flightTracker producer domain package
(`producer/src/domain`): the geospatial functions of `position.go`, the
constants of `constants.go`, and the aircraft flight-state machine of
`aircraft.go`, together with proofs about them.

Floating-point `float64` arithmetic is modelled by real numbers; goroutine
side effects (the clearance timer, the realtime wait and the report channel)
are outside the synchronous state-to-state functions modelled here and are
noted at the definitions they would touch.
-/

namespace FlightTracker

noncomputable section

/-! ## constants.go -/

def EarthRadiusMeters : ℝ := 6371e3

def NauticalMilesPerMeter : ℝ := 0.0005399565

def taxiSpeed : ℝ := 15

def takeoffAirspeed : ℝ := 150

/-- feet per second -/
def takeoffVerticalSpeed : ℝ := 25

def cruisingAirspeed : ℝ := 300

def cruisingAltitude : ℝ := 35000

def awaitingLandingAirspeed : ℝ := 200

def landingAirSpeed : ℝ := takeoffAirspeed

def landingVerticalSpeed : ℝ := -takeoffVerticalSpeed

def taxiDistanceFromOrigin : ℝ := 2

def awaitingLandingDistance : ℝ := 10

def idleDistanceFromDestination : ℝ := 0.001

def ClearanceWaitSeconds : ℕ := 120

/-! ## position.go -/

/-- GPS coordinates of a point, as in `position.go`. -/
structure Position where
  Latitude : ℝ
  Longitude : ℝ
deriving DecidableEq

/-- Truncation toward zero, as Go `math.Trunc` (restricted to the integral
part; Go returns a float). -/
def goTrunc (x : ℝ) : ℤ := if 0 ≤ x then ⌊x⌋ else -⌊-x⌋

/-- Go `math.Mod x y = x - Trunc(x/y)*y`: remainder whose sign follows `x`. -/
def goMod (x y : ℝ) : ℝ := x - y * goTrunc (x / y)

/-- Go `math.Atan2 y x`, in its mathematical branches (the NaN/∞ special
cases of the IEEE function cannot arise over ℝ; `Atan2 0 0 = 0` as in Go). -/
def atan2 (y x : ℝ) : ℝ :=
  if 0 < x then Real.arctan (y / x)
  else if x < 0 then
    (if 0 ≤ y then Real.arctan (y / x) + Real.pi else Real.arctan (y / x) - Real.pi)
  else
    (if 0 < y then Real.pi / 2 else if y < 0 then -(Real.pi / 2) else 0)

/-- `Position.CalcDistance`: haversine distance in nautical miles. -/
def CalcDistance (p destination : Position) : ℝ :=
  let sigma1 := p.Latitude * Real.pi / 180
  let sigma2 := destination.Latitude * Real.pi / 180
  let deltaSigma := (destination.Latitude - p.Latitude) * Real.pi / 180
  let deltaLambda := (destination.Longitude - p.Longitude) * Real.pi / 180
  let a := Real.sin (deltaSigma / 2) * Real.sin (deltaSigma / 2) +
    Real.cos sigma1 * Real.cos sigma2 *
      Real.sin (deltaLambda / 2) * Real.sin (deltaLambda / 2)
  let c := 2 * atan2 (Real.sqrt a) (Real.sqrt (1 - a))
  EarthRadiusMeters * c * NauticalMilesPerMeter

/-- `Position.CalcBearing`: directional bearing in degrees.  The source feeds
the degree-valued coordinates to the trigonometric functions directly (no
radian conversion), which the embedding reproduces verbatim. -/
def CalcBearing (p destination : Position) : ℝ :=
  let y := Real.sin (destination.Longitude - p.Longitude) * Real.cos destination.Latitude
  let x := Real.cos p.Latitude * Real.sin destination.Latitude -
    Real.sin p.Latitude * Real.cos destination.Latitude *
      Real.cos (destination.Longitude - p.Longitude)
  let theta := atan2 y x
  goMod (theta * 180 / Real.pi + 360) 360

/-- `Position.CalcVector`: the (bearing, distance) pair. -/
def CalcVector (p destination : Position) : ℝ × ℝ :=
  (CalcBearing p destination, CalcDistance p destination)

/-- `Position.DeterminePositionDelta`: direct geodesic step from a point,
a distance travelled (nautical miles) and a bearing.  Go's `math.Asin` is
modelled by `Real.arcsin` (their values agree on `[-1, 1]`). -/
def DeterminePositionDelta (p : Position) (distance bearing : ℝ) : Position :=
  let distanceMeters := distance / NauticalMilesPerMeter
  let angularDistance := distanceMeters / EarthRadiusMeters
  let newLat := Real.arcsin
    (Real.sin p.Latitude * Real.cos angularDistance +
      Real.cos p.Latitude * Real.sin angularDistance * Real.cos bearing)
  let newLong := p.Longitude + atan2
    (Real.sin bearing * Real.sin angularDistance * Real.cos p.Latitude)
    (Real.cos angularDistance - Real.sin p.Latitude * Real.sin newLat)
  ⟨newLat, newLong⟩

/-! ## aircraft.go -/

/-- `Status`: the seven flight phases (single-byte codes in the source). -/
inductive Status where
  | Idle
  | TaxiIn
  | TakeOff
  | Cruising
  | AwaitingLanding
  | Landing
  | TaxiOut
deriving DecidableEq

/-- The successor of each phase in the documented transition cycle
`Idle -> TaxiOut -> TakeOff -> Cruising -> AwaitingLanding -> Landing ->
TaxiIn -> Idle`. -/
def nextStatus : Status → Status
  | .Idle => .TaxiOut
  | .TaxiOut => .TakeOff
  | .TakeOff => .Cruising
  | .Cruising => .AwaitingLanding
  | .AwaitingLanding => .Landing
  | .Landing => .TaxiIn
  | .TaxiIn => .Idle

structure Airport where
  Iata : String
  Location : Position

/-- The mutable state of `Aircraft` in `aircraft.go`. -/
structure Aircraft where
  tailNum : String
  flightId : String
  origin : Airport
  destination : Airport
  CurrentPos : Position
  altitude : ℝ
  nmiToDest : ℝ
  nmiTravelled : ℝ
  speedKnots : ℝ
  vSpeedFtPerSec : ℝ
  bearing : ℝ
  HasTakeOffClearance : Bool
  HasLandingClearance : Bool
  HasClearance : Bool
  Status : Status

/-- `Aircraft.Init`. -/
def Init (tailNum flightId : String) (origin destination : Airport) : Aircraft :=
  { tailNum := tailNum
    flightId := flightId
    origin := origin
    destination := destination
    CurrentPos := origin.Location
    altitude := 0
    nmiToDest := (CalcVector origin.Location destination.Location).2
    nmiTravelled := 0
    speedKnots := 0
    vSpeedFtPerSec := 0
    bearing := (CalcVector origin.Location destination.Location).1
    HasTakeOffClearance := false
    HasLandingClearance := false
    HasClearance := false
    Status := .Idle }

/-- `Aircraft.awaitClearance` spawns a goroutine that sets `HasClearance`
after `ClearanceWaitSeconds` of real time; the synchronous call itself
mutates nothing, which is all the sequential step function can observe. -/
def awaitClearance (a : Aircraft) : Aircraft := a

/-- `Aircraft.setTaxiOut` (gate: clearance). -/
def setTaxiOut (a : Aircraft) : Aircraft :=
  if !a.HasClearance then a
  else { a with Status := .TaxiOut, speedKnots := taxiSpeed, vSpeedFtPerSec := 0 }

/-- `Aircraft.setTakeOff` (gate: distance from origin; resets clearance). -/
def setTakeOff (a : Aircraft) : Aircraft :=
  if CalcDistance a.CurrentPos a.origin.Location < taxiDistanceFromOrigin then a
  else { a with HasClearance := false, Status := .TakeOff,
                speedKnots := takeoffAirspeed, vSpeedFtPerSec := takeoffVerticalSpeed }

/-- `Aircraft.setCruising` (gate: altitude). -/
def setCruising (a : Aircraft) : Aircraft :=
  if a.altitude < cruisingAltitude then a
  else { a with Status := .Cruising, speedKnots := cruisingAirspeed, vSpeedFtPerSec := 0 }

/-- `Aircraft.setAwaitingLanding` (gate: distance to destination; arms the
clearance timer on first entry). -/
def setAwaitingLanding (a : Aircraft) : Aircraft :=
  if a.nmiToDest > awaitingLandingDistance then a
  else
    let a := if a.Status ≠ .AwaitingLanding then awaitClearance a else a
    { a with Status := .AwaitingLanding,
             speedKnots := awaitingLandingAirspeed, vSpeedFtPerSec := 0 }

/-- `Aircraft.setLanding` (gate: clearance; resets clearance). -/
def setLanding (a : Aircraft) : Aircraft :=
  if !a.HasClearance then a
  else { a with HasClearance := false, Status := .Landing,
                speedKnots := landingAirSpeed, vSpeedFtPerSec := landingVerticalSpeed }

/-- `Aircraft.setTaxiIn` (gate: altitude back at ground). -/
def setTaxiIn (a : Aircraft) : Aircraft :=
  if a.altitude > 0 then a
  else { a with Status := .TaxiIn, speedKnots := taxiSpeed, vSpeedFtPerSec := 0 }

/-- `Aircraft.setIdle` (gate: distance to destination; arms the clearance
timer on first entry). -/
def setIdle (a : Aircraft) : Aircraft :=
  if a.nmiToDest > idleDistanceFromDestination then a
  else
    let a := if a.Status ≠ .Idle then awaitClearance a else a
    { a with Status := .Idle, speedKnots := 0, vSpeedFtPerSec := 0 }

/-- `Aircraft.TransitionState`: one attempted transition of the state
machine, dispatching on the current phase. -/
def TransitionState (a : Aircraft) : Aircraft :=
  match a.Status with
  | .Idle => setTaxiOut a
  | .TaxiOut => setTakeOff a
  | .TakeOff => setCruising a
  | .Cruising => setAwaitingLanding a
  | .AwaitingLanding => setLanding a
  | .Landing => setTaxiIn a
  | .TaxiIn => setIdle a

/-- The body of the per-second loop of `Aircraft.Travel`: kinematic update
(skipped while awaiting landing) followed by one transition attempt.  The
optional realtime sleep has no effect on the aircraft state. -/
def travelSecond (a : Aircraft) : Aircraft :=
  TransitionState <|
    if a.Status ≠ .AwaitingLanding then
      let travelled := a.speedKnots / 3600
      let a1 := { a with nmiTravelled := a.nmiTravelled + travelled,
                         altitude := a.altitude + a.vSpeedFtPerSec }
      let a2 := { a1 with CurrentPos := DeterminePositionDelta a1.CurrentPos travelled a1.bearing }
      { a2 with bearing := (CalcVector a2.CurrentPos a2.destination.Location).1,
                nmiToDest := (CalcVector a2.CurrentPos a2.destination.Location).2 }
    else a

/-- `Aircraft.Travel` without its goroutine wrapper: `seconds` iterations of
the per-second loop body (the final `Report` is modelled separately). -/
def Travel (seconds : ℕ) (a : Aircraft) : Aircraft :=
  travelSecond^[seconds] a

/-! ## Report and its JSON marshalling -/

/-- The single-character phase code of each `Status` value. -/
def statusChar : Status → Char
  | .Idle => 'i'
  | .TaxiIn => 'x'
  | .TakeOff => 't'
  | .Cruising => 'c'
  | .AwaitingLanding => 'a'
  | .Landing => 'l'
  | .TaxiOut => 'o'

/-- `FlightRecord`: the report record of `aircraft.go`, fourteen string
fields. -/
structure FlightRecord where
  Time : String
  Tail : String
  FId : String
  Or : String
  Dest : String
  CLat : String
  CLong : String
  Alt : String
  Brng : String
  Trav : String
  Dist : String
  ASpd : String
  VSpd : String
  Sts : String

/-- Modelled from the spec: `strconv.FormatFloat` is standard-library code
outside this repository; it renders a float64 into a decimal string and
always succeeds.  No claim depends on the digits produced, only on the
result being a string, so the rendering itself is left unspecified. -/
def formatFloat (_x : ℝ) (_fmt : Char) (_prec _bitSize : ℕ) : String := ""

/-- A Go value in the image of `encoding/json.Marshal`'s reflection,
restricted to what this development needs: strings (which always marshal)
and one collapsed constructor for every kind of value `encoding/json`
rejects with an error (channels, functions, complex numbers, non-finite
floats).  Modelled from the spec: `encoding/json` is standard-library code
outside this repository. -/
inductive GoValue where
  | str (s : String)
  | unsupported

/-- JSON string quoting with the two escapes every encoder must apply. -/
def jsonQuote (s : String) : String :=
  "\"" ++ String.join (s.toList.map fun c =>
    if c = '"' then "\\\"" else if c = '\\' then "\\\\" else String.singleton c) ++ "\""

/-- Marshalling of a single named field: strings succeed, unsupported values
report the error `encoding/json` would raise. -/
def marshalField : String × GoValue → Except String String
  | (name, .str s) => .ok (jsonQuote name ++ ":" ++ jsonQuote s)
  | (_, .unsupported) => .error "json: unsupported type"

/-- `json.Marshal` on a flat struct: marshal each exported field in order and
join them into an object; the first unsupported field aborts with an error. -/
def marshalObject (fields : List (String × GoValue)) : Except String String := do
  let parts ← fields.mapM marshalField
  return "\x7b" ++ String.intercalate "," parts ++ "\x7d"

/-- The field list `encoding/json` reflection sees on a `FlightRecord`:
every field is a string. -/
def FlightRecord.fields (r : FlightRecord) : List (String × GoValue) :=
  [("Time", .str r.Time), ("Tail", .str r.Tail), ("FId", .str r.FId),
   ("Or", .str r.Or), ("Dest", .str r.Dest), ("CLat", .str r.CLat),
   ("CLong", .str r.CLong), ("Alt", .str r.Alt), ("Brng", .str r.Brng),
   ("Trav", .str r.Trav), ("Dist", .str r.Dist), ("ASpd", .str r.ASpd),
   ("VSpd", .str r.VSpd), ("Sts", .str r.Sts)]

/-- The `FlightRecord` built by `Aircraft.Report`; the capture timestamp is
passed in as `now` (the source reads the ambient clock). -/
def flightRecord (now : String) (a : Aircraft) : FlightRecord :=
  { Time := now
    Tail := a.tailNum
    FId := a.flightId
    Or := a.origin.Iata
    Dest := a.destination.Iata
    CLat := formatFloat a.CurrentPos.Latitude 'f' 5 64
    CLong := formatFloat a.CurrentPos.Longitude 'f' 5 64
    Alt := formatFloat a.altitude 'f' 2 64
    Brng := formatFloat a.bearing 'f' 2 64
    Trav := formatFloat a.nmiTravelled 'f' 2 64
    Dist := formatFloat a.nmiToDest 'f' 2 64
    ASpd := formatFloat a.speedKnots 'f' 2 64
    VSpd := formatFloat a.vSpeedFtPerSec 'f' 2 64
    Sts := String.singleton (statusChar a.Status) }

/-- `Aircraft.Report`: build the record and marshal it. -/
def Report (now : String) (a : Aircraft) : Except String String :=
  marshalObject (flightRecord now a).fields

end

/-! ## Shared concrete states for counterexamples and witnesses -/

/-- A generic in-flight state used as the base of concrete instances. -/
noncomputable def baseAircraft : Aircraft :=
  { tailNum := "AB-123", flightId := "F123"
    origin := ⟨"ATL", ⟨0, 0⟩⟩, destination := ⟨"LAX", ⟨1, 1⟩⟩
    CurrentPos := ⟨0, 0⟩, altitude := 0
    nmiToDest := 50, nmiTravelled := 0
    speedKnots := 0, vSpeedFtPerSec := 0, bearing := 0
    HasTakeOffClearance := false, HasLandingClearance := false
    HasClearance := false, Status := .Idle }

/-! ## Frame and cycle helpers shared by several claims -/

/-- One `TransitionState` call leaves untouched every field other than
`Status`, `speedKnots`, `vSpeedFtPerSec` and `HasClearance`. -/
theorem transitionState_frame (a : Aircraft) :
    (TransitionState a).tailNum = a.tailNum ∧
    (TransitionState a).flightId = a.flightId ∧
    (TransitionState a).origin = a.origin ∧
    (TransitionState a).destination = a.destination ∧
    (TransitionState a).CurrentPos = a.CurrentPos ∧
    (TransitionState a).altitude = a.altitude ∧
    (TransitionState a).nmiTravelled = a.nmiTravelled ∧
    (TransitionState a).nmiToDest = a.nmiToDest ∧
    (TransitionState a).bearing = a.bearing ∧
    (TransitionState a).HasTakeOffClearance = a.HasTakeOffClearance ∧
    (TransitionState a).HasLandingClearance = a.HasLandingClearance := by
  obtain ⟨tn, fi, og, de, cp, al, nd, nt, sk, vs, br, h1, h2, hc, st⟩ := a
  cases st <;>
    simp only [TransitionState, setTaxiOut, setTakeOff, setCruising, setAwaitingLanding,
      setLanding, setTaxiIn, setIdle, awaitClearance] <;>
    split_ifs <;> simp

/-- One `TransitionState` call either keeps the phase or moves it to its
unique successor in the fixed cycle. -/
theorem transitionState_step (a : Aircraft) :
    (TransitionState a).Status = a.Status ∨
    (TransitionState a).Status = nextStatus a.Status := by
  obtain ⟨tn, fi, og, de, cp, al, nd, nt, sk, vs, br, h1, h2, hc, st⟩ := a
  cases st <;>
    simp only [TransitionState, setTaxiOut, setTakeOff, setCruising, setAwaitingLanding,
      setLanding, setTaxiIn, setIdle, awaitClearance, nextStatus] <;>
    split_ifs <;> simp

/-! ## C1: the AwaitingLanding -> Landing transition -/

/-- An aircraft holding before landing, clearance granted. -/
noncomputable def c1Input : Aircraft :=
  { baseAircraft with Status := .AwaitingLanding, HasClearance := true,
                      speedKnots := awaitingLandingAirspeed, nmiToDest := 8 }

/-- C1 (counterexample).  The claim asserts that when the
AwaitingLanding -> Landing transition fires, the airspeed snaps to the
taxi-equivalent airspeed.  At this concrete granted-clearance state the
transition does fire, but the airspeed snaps to 150 knots (the takeoff
airspeed), not to the 15-knot taxi speed. -/
theorem c1_counterexample :
    (TransitionState c1Input).Status = .Landing ∧
    taxiSpeed = 15 ∧
    (TransitionState c1Input).speedKnots = 150 ∧
    (TransitionState c1Input).speedKnots ≠ taxiSpeed := by
  refine ⟨?_, by norm_num [taxiSpeed], ?_, ?_⟩ <;>
    simp [TransitionState, setLanding, c1Input, baseAircraft, landingAirSpeed,
      takeoffAirspeed, taxiSpeed]

/-- C1 (amended).  For every state in phase AwaitingLanding, one
`TransitionState` call moves the phase to Landing iff the clearance flag is
granted when the guard is evaluated; when the transition fires the flag is
reset, the airspeed snaps to the landing airspeed — which the constants
define as the takeoff airspeed, 150 knots, not the taxi speed — and the
vertical speed to the fixed negative descent rate; when the guard fails the
state is unchanged. -/
theorem c1_landing_transition (a : Aircraft) (h : a.Status = .AwaitingLanding) :
    ((TransitionState a).Status = .Landing ↔ a.HasClearance = true) ∧
    (a.HasClearance = true →
      (TransitionState a).HasClearance = false ∧
      (TransitionState a).speedKnots = landingAirSpeed ∧
      landingAirSpeed = 150 ∧
      (TransitionState a).vSpeedFtPerSec = landingVerticalSpeed ∧
      landingVerticalSpeed = -25) ∧
    (a.HasClearance = false → TransitionState a = a) := by
  obtain ⟨tn, fi, og, de, cp, al, nd, nt, sk, vs, br, h1, h2, hc, st⟩ := a
  change st = Status.AwaitingLanding at h
  subst h
  cases hc <;>
    simp [TransitionState, setLanding, landingAirSpeed, takeoffAirspeed,
      landingVerticalSpeed, takeoffVerticalSpeed]

/-- C1 (witness): the amended theorem applied to the concrete granted and
not-granted holding states. -/
theorem c1_witness :
    ((TransitionState c1Input).Status = .Landing ↔ c1Input.HasClearance = true) ∧
    ((TransitionState { c1Input with HasClearance := false }) =
      { c1Input with HasClearance := false }) := by
  refine ⟨(c1_landing_transition c1Input rfl).1, ?_⟩
  exact (c1_landing_transition { c1Input with HasClearance := false } rfl).2.2 rfl

/-! ## C2: the per-second travel update -/

/-- C2.  Each simulated second of `Travel` (whose loop body is
`travelSecond`) in a phase other than AwaitingLanding adds
`speedKnots / 3600` to the distance travelled, adds the vertical speed to
the altitude, advances the position along the current bearing via
`DeterminePositionDelta`, and recomputes bearing and remaining distance
from the new position to the destination; a second spent in AwaitingLanding
leaves position, distance travelled and altitude unchanged. -/
theorem c2_travel_second (a : Aircraft) :
    (a.Status ≠ .AwaitingLanding →
      (travelSecond a).nmiTravelled = a.nmiTravelled + a.speedKnots / 3600 ∧
      (travelSecond a).altitude = a.altitude + a.vSpeedFtPerSec ∧
      (travelSecond a).CurrentPos =
        DeterminePositionDelta a.CurrentPos (a.speedKnots / 3600) a.bearing ∧
      (travelSecond a).bearing =
        CalcBearing (DeterminePositionDelta a.CurrentPos (a.speedKnots / 3600) a.bearing)
          a.destination.Location ∧
      (travelSecond a).nmiToDest =
        CalcDistance (DeterminePositionDelta a.CurrentPos (a.speedKnots / 3600) a.bearing)
          a.destination.Location) ∧
    (a.Status = .AwaitingLanding →
      (travelSecond a).CurrentPos = a.CurrentPos ∧
      (travelSecond a).nmiTravelled = a.nmiTravelled ∧
      (travelSecond a).altitude = a.altitude) := by
  have hf := transitionState_frame
  constructor
  · intro h
    simp only [travelSecond, if_pos h, CalcVector]
    refine ⟨?_, ?_, ?_, ?_, ?_⟩ <;>
      simp [(hf _).2.2.2.2.1, (hf _).2.2.2.2.2.1, (hf _).2.2.2.2.2.2.1,
        (hf _).2.2.2.2.2.2.2.1, (hf _).2.2.2.2.2.2.2.2.1, (hf _).2.2.2.1]
  · intro h
    simp only [travelSecond, h, ne_eq, not_true_eq_false, if_neg, ite_false]
    exact ⟨(hf _).2.2.2.2.1, (hf _).2.2.2.2.2.2.1, (hf _).2.2.2.2.2.1⟩

/-- A cruising aircraft used to witness the moving branch of C2. -/
noncomputable def c2Input : Aircraft :=
  { baseAircraft with Status := .Cruising, speedKnots := cruisingAirspeed,
                      altitude := 35000, nmiTravelled := 100, nmiToDest := 50,
                      bearing := 28 }

/-- C2 (witness): both branches of the per-second theorem at concrete
states. -/
theorem c2_witness :
    ((travelSecond c2Input).nmiTravelled = c2Input.nmiTravelled + c2Input.speedKnots / 3600 ∧
     (travelSecond c2Input).altitude = c2Input.altitude + c2Input.vSpeedFtPerSec ∧
     (travelSecond c2Input).CurrentPos =
       DeterminePositionDelta c2Input.CurrentPos (c2Input.speedKnots / 3600) c2Input.bearing ∧
     (travelSecond c2Input).bearing =
       CalcBearing
         (DeterminePositionDelta c2Input.CurrentPos (c2Input.speedKnots / 3600) c2Input.bearing)
         c2Input.destination.Location ∧
     (travelSecond c2Input).nmiToDest =
       CalcDistance
         (DeterminePositionDelta c2Input.CurrentPos (c2Input.speedKnots / 3600) c2Input.bearing)
         c2Input.destination.Location) ∧
    ((travelSecond { c2Input with Status := .AwaitingLanding }).CurrentPos =
      ({ c2Input with Status := .AwaitingLanding } : Aircraft).CurrentPos) := by
  refine ⟨(c2_travel_second c2Input).1 (by simp [c2Input, baseAircraft]), ?_⟩
  exact ((c2_travel_second { c2Input with Status := .AwaitingLanding }).2 rfl).1

/-! ## C3: the phase cycle -/

/-- C3.  A single `TransitionState` call either leaves the phase unchanged
or moves it to its unique successor in the fixed cycle
Idle, TaxiOut, TakeOff, Cruising, AwaitingLanding, Landing, TaxiIn, Idle;
no skip to a non-adjacent phase and no regression other than the wraparound
encoded in `nextStatus`. -/
theorem c3_phase_cycle (a : Aircraft) :
    (TransitionState a).Status = a.Status ∨
    (TransitionState a).Status = nextStatus a.Status :=
  transitionState_step a

/-! ## C4: clearance consumption around TaxiOut -/

/-- An idle aircraft that has been granted taxi-out clearance. -/
noncomputable def c4Input : Aircraft :=
  { baseAircraft with Status := .Idle, HasClearance := true }

/-- C4 (counterexample).  The claim asserts that the Idle -> TaxiOut
transition consumes (resets) the takeoff-class clearance as part of that
same transition.  At this concrete state the transition fires, yet the
clearance flag is still granted afterwards. -/
theorem c4_counterexample :
    (TransitionState c4Input).Status = .TaxiOut ∧
    (TransitionState c4Input).HasClearance = true := by
  constructor <;> simp [TransitionState, setTaxiOut, c4Input, baseAircraft]

/-- C4 (amended).  The Idle -> TaxiOut transition leaves the clearance flag
granted; the takeoff-class clearance is instead consumed by the subsequent
TaxiOut -> TakeOff transition when its distance gate passes. -/
theorem c4_clearance_consumption (a : Aircraft) :
    (a.Status = .Idle → a.HasClearance = true →
      (TransitionState a).Status = .TaxiOut ∧
      (TransitionState a).HasClearance = true) ∧
    (a.Status = .TaxiOut →
      taxiDistanceFromOrigin ≤ CalcDistance a.CurrentPos a.origin.Location →
      (TransitionState a).Status = .TakeOff ∧
      (TransitionState a).HasClearance = false) := by
  constructor
  · intro h hc
    obtain ⟨tn, fi, og, de, cp, al, nd, nt, sk, vs, br, h1, h2, hcl, st⟩ := a
    subst h; simp_all [TransitionState, setTaxiOut]
  · intro h hd
    obtain ⟨tn, fi, og, de, cp, al, nd, nt, sk, vs, br, h1, h2, hcl, st⟩ := a
    subst h
    simp_all [TransitionState, setTakeOff, not_lt.2 hd]

/-- An aircraft taxiing out, already 180 degrees of latitude from its
origin, so certainly past the 2-nautical-mile gate. -/
noncomputable def c4FarInput : Aircraft :=
  { baseAircraft with Status := .TaxiOut, HasClearance := true,
                      CurrentPos := ⟨0, 0⟩, origin := ⟨"ORG", ⟨180, 0⟩⟩ }

/-- The haversine distance from latitude 0 to latitude 180 (degrees) is half
the Earth circumference in nautical miles, which clears the taxi gate. -/
theorem c4FarInput_distance :
    taxiDistanceFromOrigin ≤ CalcDistance c4FarInput.CurrentPos c4FarInput.origin.Location := by
  have harg1 : ((180 : ℝ) - 0) * Real.pi / 180 / 2 = Real.pi / 2 := by ring
  have harg2 : ((0 : ℝ) - 0) * Real.pi / 180 / 2 = 0 := by ring
  have hlat : ((180 : ℝ)) * Real.pi / 180 = Real.pi := by ring
  have hlat0 : ((0 : ℝ)) * Real.pi / 180 = 0 := by ring
  show taxiDistanceFromOrigin ≤ CalcDistance ⟨0, 0⟩ ⟨180, 0⟩
  simp only [CalcDistance, harg1, harg2, hlat, hlat0, Real.sin_pi_div_two, Real.sin_zero,
    Real.cos_zero, Real.cos_pi]
  have ha : (1 : ℝ) * 1 + 1 * -1 * 0 * 0 = 1 := by ring
  rw [ha]
  have h1 : Real.sqrt 1 = 1 := Real.sqrt_one
  have h0 : (1 : ℝ) - 1 = 0 := by ring
  rw [h0, Real.sqrt_zero, h1]
  have hat : atan2 1 0 = Real.pi / 2 := by
    simp [atan2]
  rw [hat]
  rw [taxiDistanceFromOrigin, EarthRadiusMeters, NauticalMilesPerMeter]
  nlinarith [Real.pi_gt_three]

/-- C4 (witness): the amended theorem applied at the concrete idle state and
the concrete far-from-origin taxi state. -/
theorem c4_witness :
    ((TransitionState c4Input).Status = .TaxiOut ∧
     (TransitionState c4Input).HasClearance = true) ∧
    ((TransitionState c4FarInput).Status = .TakeOff ∧
     (TransitionState c4FarInput).HasClearance = false) :=
  ⟨(c4_clearance_consumption c4Input).1 rfl rfl,
   (c4_clearance_consumption c4FarInput).2 rfl c4FarInput_distance⟩

/-! ## C9: Report cannot fail -/

/-- C9.  `Report` marshals a record whose fields are all strings, so the
marshalling step always succeeds and the panic branch guarding `Report`
inside `Travel` is unreachable: for every state (and capture timestamp) the
result is `Except.ok`. -/
theorem c9_report_ok (now : String) (a : Aircraft) :
    ∃ s, Report now a = Except.ok s := by
  exact ⟨_, rfl⟩

/-! ## C10: the frame of TransitionState -/

/-- C10.  A `TransitionState` call writes at most the phase, the airspeed,
the vertical speed and the clearance flag: identity, route, position,
altitude, distances and bearing (and the two unused clearance fields) are
returned unchanged whichever guard fires. -/
theorem c10_transition_frame (a : Aircraft) :
    (TransitionState a).tailNum = a.tailNum ∧
    (TransitionState a).flightId = a.flightId ∧
    (TransitionState a).origin = a.origin ∧
    (TransitionState a).destination = a.destination ∧
    (TransitionState a).CurrentPos = a.CurrentPos ∧
    (TransitionState a).altitude = a.altitude ∧
    (TransitionState a).nmiTravelled = a.nmiTravelled ∧
    (TransitionState a).nmiToDest = a.nmiToDest ∧
    (TransitionState a).bearing = a.bearing ∧
    (TransitionState a).HasTakeOffClearance = a.HasTakeOffClearance ∧
    (TransitionState a).HasLandingClearance = a.HasLandingClearance :=
  transitionState_frame a

/-! ## Range of atan2 and goMod, shared by the bearing claims -/

/-- Go's `Atan2` lands in `[-pi, pi]`. -/
theorem atan2_mem_Icc (y x : ℝ) :
    -Real.pi ≤ atan2 y x ∧ atan2 y x ≤ Real.pi := by
  have hpi := Real.pi_pos
  have hlt := Real.arctan_lt_pi_div_two (y / x)
  have hgt := Real.neg_pi_div_two_lt_arctan (y / x)
  unfold atan2
  split_ifs with h1 h2 h3 h4 h5
  · constructor <;> linarith
  · have hyx : y / x ≤ 0 := div_nonpos_iff.mpr (Or.inl ⟨h3, h2.le⟩)
    have : Real.arctan (y / x) ≤ 0 := by
      simpa [Real.arctan_zero] using Real.arctan_strictMono.monotone hyx
    constructor <;> linarith
  · have hyx : 0 ≤ y / x := by
      have hy : y ≤ 0 := le_of_not_le h3
      exact div_nonneg_iff.mpr (Or.inr ⟨hy, h2.le⟩)
    have : 0 ≤ Real.arctan (y / x) := by
      simpa [Real.arctan_zero] using Real.arctan_strictMono.monotone hyx
    constructor <;> linarith
  · constructor <;> linarith
  · constructor <;> linarith
  · constructor <;> linarith

/-- On `[180, 540]` (where every degree-shifted bearing lands), `goMod · 360`
returns a value in `[0, 360)`. -/
theorem goMod_range {x : ℝ} (h1 : 180 ≤ x) (h2 : x ≤ 540) :
    0 ≤ goMod x 360 ∧ goMod x 360 < 360 := by
  have h0 : (0 : ℝ) ≤ x / 360 := by linarith
  unfold goMod goTrunc
  rw [if_pos h0]
  by_cases hx : x < 360
  · have hf : ⌊x / 360⌋ = 0 := by
      rw [Int.floor_eq_iff]
      constructor
      · push_cast; linarith
      · push_cast; linarith
    rw [hf]
    push_cast
    constructor <;> linarith
  · have hf : ⌊x / 360⌋ = 1 := by
      rw [Int.floor_eq_iff]
      constructor
      · push_cast; linarith
      · push_cast; linarith
    rw [hf]
    push_cast
    constructor <;> linarith

/-! ## C6: coincident points -/

/-- C6.  For every point, the distance from the point to itself is 0 and
the bearing from the point to itself is 0. -/
theorem c6_coincident (p : Position) :
    CalcDistance p p = 0 ∧ CalcBearing p p = 0 := by
  constructor
  · have e1 : (p.Latitude - p.Latitude) * Real.pi / 180 / 2 = 0 := by ring
    have e2 : (p.Longitude - p.Longitude) * Real.pi / 180 / 2 = 0 := by ring
    simp [CalcDistance, e1, e2, atan2, Real.arctan_zero]
  · have e1 : p.Longitude - p.Longitude = 0 := sub_self _
    have e0 : Real.cos p.Latitude * Real.sin p.Latitude -
        Real.sin p.Latitude * Real.cos p.Latitude * 1 = 0 := by ring
    simp only [CalcBearing, e1, Real.sin_zero, Real.cos_zero, zero_mul, e0]
    have hat : atan2 0 0 = 0 := by simp [atan2]
    rw [hat]
    have harg : (0 : ℝ) * 180 / Real.pi + 360 = 360 := by
      simp
    rw [harg]
    have hdiv : (360 : ℝ) / 360 = 1 := by norm_num
    simp only [goMod, goTrunc, hdiv]
    norm_num

/-! ## C7: distance symmetry -/

/-- The haversine distance is exactly symmetric in its two endpoints. -/
theorem calcDistance_comm (a b : Position) :
    CalcDistance a b = CalcDistance b a := by
  simp only [CalcDistance]
  rw [show (a.Latitude - b.Latitude) * Real.pi / 180 / 2 =
        -((b.Latitude - a.Latitude) * Real.pi / 180 / 2) by ring,
      show (a.Longitude - b.Longitude) * Real.pi / 180 / 2 =
        -((b.Longitude - a.Longitude) * Real.pi / 180 / 2) by ring]
  simp only [Real.sin_neg]
  ring_nf

/-- C7.  The haversine distance is exactly symmetric in its two endpoints
(the claim allows floating-point tolerance; over the reals the two values
are equal). -/
theorem c7_distance_symm (a b : Position) :
    CalcDistance a b = CalcDistance b a :=
  calcDistance_comm a b

/-! ## C8: bearing construction and range -/

/-- C8.  The bearing is literally the atan2 angle converted to degrees,
shifted by 360 and reduced with Go's `Mod` by 360, and that value always
lies in `[0, 360)`. -/
theorem c8_bearing_range (p q : Position) :
    CalcBearing p q =
      goMod (atan2 (Real.sin (q.Longitude - p.Longitude) * Real.cos q.Latitude)
          (Real.cos p.Latitude * Real.sin q.Latitude -
            Real.sin p.Latitude * Real.cos q.Latitude *
              Real.cos (q.Longitude - p.Longitude)) * 180 / Real.pi + 360) 360 ∧
    0 ≤ CalcBearing p q ∧ CalcBearing p q < 360 := by
  have hform : CalcBearing p q =
      goMod (atan2 (Real.sin (q.Longitude - p.Longitude) * Real.cos q.Latitude)
          (Real.cos p.Latitude * Real.sin q.Latitude -
            Real.sin p.Latitude * Real.cos q.Latitude *
              Real.cos (q.Longitude - p.Longitude)) * 180 / Real.pi + 360) 360 := rfl
  refine ⟨hform, ?_⟩
  rw [hform]
  set θ := atan2 (Real.sin (q.Longitude - p.Longitude) * Real.cos q.Latitude)
      (Real.cos p.Latitude * Real.sin q.Latitude -
        Real.sin p.Latitude * Real.cos q.Latitude *
          Real.cos (q.Longitude - p.Longitude)) with hθ
  obtain ⟨hl, hu⟩ := atan2_mem_Icc (Real.sin (q.Longitude - p.Longitude) * Real.cos q.Latitude)
      (Real.cos p.Latitude * Real.sin q.Latitude -
        Real.sin p.Latitude * Real.cos q.Latitude *
          Real.cos (q.Longitude - p.Longitude))
  rw [← hθ] at hl hu
  have hpi := Real.pi_pos
  have hdegu : θ * 180 / Real.pi ≤ 180 := by
    rw [div_le_iff₀ hpi]
    nlinarith
  have hdegl : -180 ≤ θ * 180 / Real.pi := by
    rw [le_div_iff₀ hpi]
    nlinarith
  exact goMod_range (by linarith) (by linarith)

/-! ## Rational interval bounds on sin, cos and arctan

The known-value claim C5 is settled by exact interval arithmetic: quartic
Taylor bounds at small rational arguments, then double-angle steps up to the
arguments appearing in `CalcVector` on the test coordinates. -/

theorem sin_poly_lb {x : ℝ} (h0 : 0 ≤ x) (h1 : x ≤ 1) :
    x - x ^ 3 / 6 - x ^ 4 * (5 / 96) ≤ Real.sin x := by
  have hb := Real.sin_bound (x := x) (by rw [abs_of_nonneg h0]; exact h1)
  rw [abs_of_nonneg h0] at hb
  have h2 := (abs_sub_le_iff.mp hb).2
  linarith

theorem sin_poly_ub {x : ℝ} (h0 : 0 ≤ x) (h1 : x ≤ 1) :
    Real.sin x ≤ x - x ^ 3 / 6 + x ^ 4 * (5 / 96) := by
  have hb := Real.sin_bound (x := x) (by rw [abs_of_nonneg h0]; exact h1)
  rw [abs_of_nonneg h0] at hb
  have h2 := (abs_sub_le_iff.mp hb).1
  linarith

theorem cos_poly_lb {x : ℝ} (h0 : 0 ≤ x) (h1 : x ≤ 1) :
    1 - x ^ 2 / 2 - x ^ 4 * (5 / 96) ≤ Real.cos x := by
  have hb := Real.cos_bound (x := x) (by rw [abs_of_nonneg h0]; exact h1)
  rw [abs_of_nonneg h0] at hb
  have h2 := (abs_sub_le_iff.mp hb).2
  linarith

theorem cos_poly_ub {x : ℝ} (h0 : 0 ≤ x) (h1 : x ≤ 1) :
    Real.cos x ≤ 1 - x ^ 2 / 2 + x ^ 4 * (5 / 96) := by
  have hb := Real.cos_bound (x := x) (by rw [abs_of_nonneg h0]; exact h1)
  rw [abs_of_nonneg h0] at hb
  have h2 := (abs_sub_le_iff.mp hb).1
  linarith

/-- One cos-only double-angle interval step. -/
theorem cos_double_bounds {t s l u L U : ℝ} (hs : s = 2 * t)
    (h1 : l ≤ Real.cos t) (h2 : Real.cos t ≤ u) (h0 : 0 ≤ l)
    (hL : L ≤ 2 * l ^ 2 - 1) (hU : 2 * u ^ 2 - 1 ≤ U) :
    L ≤ Real.cos s ∧ Real.cos s ≤ U := by
  subst hs
  rw [Real.cos_two_mul]
  constructor <;> nlinarith

/-- One joint sin/cos double-angle interval step. -/
theorem sincos_double_bounds {t s sl su cl cu SL SU CL CU : ℝ} (hs : s = 2 * t)
    (h1 : sl ≤ Real.sin t) (h2 : Real.sin t ≤ su)
    (h3 : cl ≤ Real.cos t) (h4 : Real.cos t ≤ cu)
    (hsl : 0 ≤ sl) (hcl : 0 ≤ cl)
    (hSL : SL ≤ 2 * sl * cl) (hSU : 2 * su * cu ≤ SU)
    (hCL : CL ≤ 1 - 2 * su ^ 2) (hCU : 1 - 2 * sl ^ 2 ≤ CU) :
    (SL ≤ Real.sin s ∧ Real.sin s ≤ SU) ∧ (CL ≤ Real.cos s ∧ Real.cos s ≤ CU) := by
  subst hs
  have hcos : Real.cos (2 * t) = 1 - 2 * Real.sin t ^ 2 := by
    rw [Real.cos_two_mul, ← Real.sin_sq_add_cos_sq t]
    ring
  rw [Real.sin_two_mul, hcos]
  refine ⟨⟨?_, ?_⟩, ?_, ?_⟩ <;> nlinarith

/-- `cos 1` to ten decimals, by six double-angle steps from `1/64`. -/
theorem cos_one_interval :
    (0.5402830451353 : ℝ) ≤ Real.cos 1 ∧ Real.cos 1 ≤ 0.5403044464154 := by
  have h64 : (0.9998779265830 : ℝ) ≤ Real.cos (1 / 64) ∧
      Real.cos (1 / 64) ≤ 0.9998779327920 :=
    ⟨le_trans (by norm_num) (cos_poly_lb (by norm_num) (by norm_num)),
     le_trans (cos_poly_ub (by norm_num) (by norm_num)) (by norm_num)⟩
  have h32 : (0.9995117361358 : ℝ) ≤ Real.cos (1 / 32) ∧
      Real.cos (1 / 32) ≤ 0.9995117609689 :=
    cos_double_bounds (by norm_num) h64.1 h64.2 (by norm_num) (by norm_num) (by norm_num)
  have h16 : (0.9980474213464 : ℝ) ≤ Real.cos (1 / 16) ∧
      Real.cos (1 / 16) ≤ 0.9980475206304 :=
    cos_double_bounds (by norm_num) h32.1 h32.2 (by norm_num) (by norm_num) (by norm_num)
  have h8 : (0.9921973105123 : ℝ) ≤ Real.cos (1 / 8) ∧
      Real.cos (1 / 8) ≤ 0.9921977068730 :=
    cos_double_bounds (by norm_num) h16.1 h16.2 (by norm_num) (by norm_num) (by norm_num)
  have h4 : (0.9689110059756 : ℝ) ≤ Real.cos (1 / 4) ∧
      Real.cos (1 / 4) ≤ 0.9689125790481 :=
    cos_double_bounds (by norm_num) h8.1 h8.2 (by norm_num) (by norm_num) (by norm_num)
  have h2 : (0.8775770750012 : ℝ) ≤ Real.cos (1 / 2) ∧
      Real.cos (1 / 2) ≤ 0.8775831716753 :=
    cos_double_bounds (by norm_num) h4.1 h4.2 (by norm_num) (by norm_num) (by norm_num)
  exact cos_double_bounds (by norm_num) h2.1 h2.2 (by norm_num) (by norm_num) (by norm_num)

/-- sin and cos at the lower bearing anchor `0.4952`, by three double-angle
steps from `0.0619`. -/
theorem sincos_anchor_lo :
    ((0.4752005879334 : ℝ) ≤ Real.sin 0.4952 ∧ Real.sin 0.4952 ≤ 0.4752140300901) ∧
    ((0.8798706624793 : ℝ) ≤ Real.cos 0.4952 ∧ Real.cos 0.4952 ≤ 0.8798770616594) := by
  have hs0 : (0.0618597059091 : ℝ) ≤ Real.sin 0.0619 ∧ Real.sin 0.0619 ≤ 0.0618612352045 :=
    ⟨le_trans (by norm_num) (sin_poly_lb (by norm_num) (by norm_num)),
     le_trans (sin_poly_ub (by norm_num) (by norm_num)) (by norm_num)⟩
  have hc0 : (0.9980834303523 : ℝ) ≤ Real.cos 0.0619 ∧ Real.cos 0.0619 ≤ 0.9980849596477 :=
    ⟨le_trans (by norm_num) (cos_poly_lb (by norm_num) (by norm_num)),
     le_trans (cos_poly_ub (by norm_num) (by norm_num)) (by norm_num)⟩
  have h1 := sincos_double_bounds (show (0.1238 : ℝ) = 2 * 0.0619 by norm_num)
    hs0.1 hs0.2 hc0.1 hc0.2 (by norm_num) (by norm_num)
    (show (0.1234822949486 : ℝ) ≤ _ by norm_num)
    (show _ ≤ (0.1234855368857 : ℝ) by norm_num)
    (show (0.9923463751579 : ℝ) ≤ _ by norm_num)
    (show _ ≤ (0.9923467535697 : ℝ) by norm_num)
  have h2 := sincos_double_bounds (show (0.2476 : ℝ) = 2 * 0.1238 by norm_num)
    h1.1.1 h1.1.2 h1.2.1 h1.2.2 (by norm_num) (by norm_num)
    (show (0.2450744155768 : ℝ) ≤ _ by norm_num)
    (show _ ≤ (0.2450809432827 : ℝ) by norm_num)
    (show (0.9695026443601 : ℝ) ≤ _ by norm_num)
    (show _ ≤ (0.9695042456685 : ℝ) by norm_num)
  exact sincos_double_bounds (show (0.4952 : ℝ) = 2 * 0.2476 by norm_num)
    h2.1.1 h2.1.2 h2.2.1 h2.2.2 (by norm_num) (by norm_num)
    (show (0.4752005879334 : ℝ) ≤ _ by norm_num)
    (show _ ≤ (0.4752140300901 : ℝ) by norm_num)
    (show (0.8798706624793 : ℝ) ≤ _ by norm_num)
    (show _ ≤ (0.8798770616594 : ℝ) by norm_num)

/-- sin and cos at the upper bearing anchor `0.49548`, by three double-angle
steps from `0.061935`. -/
theorem sincos_anchor_hi :
    ((0.4754469173691 : ℝ) ≤ Real.sin 0.49548 ∧ Real.sin 0.49548 ≤ 0.4754603908906) ∧
    ((0.8797375613053 : ℝ) ≤ Real.cos 0.49548 ∧ Real.cos 0.49548 ≤ 0.8797439787671) := by
  have hs0 : (0.0618946370871 : ℝ) ≤ Real.sin 0.061935 ∧
      Real.sin 0.061935 ≤ 0.0618961698443 :=
    ⟨le_trans (by norm_num) (sin_poly_lb (by norm_num) (by norm_num)),
     le_trans (sin_poly_ub (by norm_num) (by norm_num)) (by norm_num)⟩
  have hc0 : (0.9980812615089 : ℝ) ≤ Real.cos 0.061935 ∧
      Real.cos 0.061935 ≤ 0.9980827942661 :=
    ⟨le_trans (by norm_num) (cos_poly_lb (by norm_num) (by norm_num)),
     le_trans (cos_poly_ub (by norm_num) (by norm_num)) (by norm_num)⟩
  have h1 := sincos_double_bounds (show (0.12387 : ℝ) = 2 * 0.061935 by norm_num)
    hs0.1 hs0.2 hc0.1 hc0.2 (by norm_num) (by norm_num)
    (show (0.1235517549290 : ℝ) ≤ _ by norm_num)
    (show _ ≤ (0.1235550043052 : ℝ) by norm_num)
    (show (0.9923377283172 : ℝ) ≤ _ by norm_num)
    (show _ ≤ (0.9923381077998 : ℝ) by norm_num)
  have h2 := sincos_double_bounds (show (0.24774 : ℝ) = 2 * 0.12387 by norm_num)
    h1.1.1 h1.1.2 h1.2.1 h1.2.2 (by norm_num) (by norm_num)
    (show (0.2452101356316 : ℝ) ≤ _ by norm_num)
    (show _ ≤ (0.2452166783629 : ℝ) by norm_num)
    (show (0.9694683218222 : ℝ) ≤ _ by norm_num)
    (show _ ≤ (0.9694699277080 : ℝ) by norm_num)
  exact sincos_double_bounds (show (0.49548 : ℝ) = 2 * 0.24774 by norm_num)
    h2.1.1 h2.1.2 h2.2.1 h2.2.2 (by norm_num) (by norm_num)
    (show (0.4754469173691 : ℝ) ≤ _ by norm_num)
    (show _ ≤ (0.4754603908906 : ℝ) by norm_num)
    (show (0.8797375613053 : ℝ) ≤ _ by norm_num)
    (show _ ≤ (0.8797439787671 : ℝ) by norm_num)

/-- The bearing angle `arctan (cos 1)` pinned between the two anchors. -/
theorem arctan_cos_one_interval :
    (0.4952 : ℝ) < Real.arctan (Real.cos 1) ∧
    Real.arctan (Real.cos 1) < 0.49548 := by
  obtain ⟨⟨hslL, hsuL⟩, ⟨hclL, hcuL⟩⟩ := sincos_anchor_lo
  obtain ⟨⟨hslH, hsuH⟩, ⟨hclH, hcuH⟩⟩ := sincos_anchor_hi
  obtain ⟨hc1l, hc1u⟩ := cos_one_interval
  have hpi6 := Real.pi_gt_d6
  have hcosLpos : (0 : ℝ) < Real.cos 0.4952 := lt_of_lt_of_le (by norm_num) hclL
  have hcosHpos : (0 : ℝ) < Real.cos 0.49548 := lt_of_lt_of_le (by norm_num) hclH
  constructor
  · have htan : Real.tan 0.4952 < Real.cos 1 := by
      rw [Real.tan_eq_sin_div_cos, div_lt_iff₀ hcosLpos]
      nlinarith
    have hmono := Real.arctan_strictMono htan
    rwa [Real.arctan_tan (by linarith) (by linarith)] at hmono
  · have htan : Real.cos 1 < Real.tan 0.49548 := by
      rw [Real.tan_eq_sin_div_cos, lt_div_iff₀ hcosHpos]
      nlinarith
    have hmono := Real.arctan_strictMono htan
    rwa [Real.arctan_tan (by linarith) (by linarith)] at hmono

/-- The bearing in degrees, `arctan (cos 1) * 180 / pi`, lies in
`[28.37, 28.39]`. -/
theorem bearing_deg_interval :
    (28.37 : ℝ) ≤ Real.arctan (Real.cos 1) * 180 / Real.pi ∧
    Real.arctan (Real.cos 1) * 180 / Real.pi ≤ 28.39 := by
  obtain ⟨hl, hu⟩ := arctan_cos_one_interval
  have hpil := Real.pi_gt_d6
  have hpiu := Real.pi_lt_d6
  have hpip := Real.pi_pos
  constructor
  · rw [le_div_iff₀ hpip]
    nlinarith
  · rw [div_le_iff₀ hpip]
    nlinarith

/-- `goMod x 360` is the identity on `[0, 360)`. -/
theorem goMod_id {x : ℝ} (h1 : 0 ≤ x) (h2 : x < 360) : goMod x 360 = x := by
  unfold goMod goTrunc
  have h0 : (0 : ℝ) ≤ x / 360 := by linarith
  rw [if_pos h0]
  have hf : ⌊x / 360⌋ = 0 := by
    rw [Int.floor_eq_iff]
    constructor
    · push_cast; linarith
    · push_cast; linarith
  rw [hf]
  push_cast
  ring

/-- `goMod x 360` subtracts one period on `[360, 720)`. -/
theorem goMod_sub {x : ℝ} (h1 : 360 ≤ x) (h2 : x < 720) : goMod x 360 = x - 360 := by
  unfold goMod goTrunc
  have h0 : (0 : ℝ) ≤ x / 360 := by linarith
  rw [if_pos h0]
  have hf : ⌊x / 360⌋ = 1 := by
    rw [Int.floor_eq_iff]
    constructor
    · push_cast; linarith
    · push_cast; linarith
  rw [hf]
  push_cast
  ring

/-- `sin (pi/360)` with the pi interval folded in. -/
theorem sin_pi360_interval :
    (0.0087265333804 : ℝ) ≤ Real.sin (Real.pi / 360) ∧
    Real.sin (Real.pi / 360) ≤ 0.0087265367623 := by
  have hpil := Real.pi_gt_d6
  have hpiu := Real.pi_lt_d6
  have hpip := Real.pi_pos
  constructor
  · have hmono : Real.sin (3.141592 / 360) ≤ Real.sin (Real.pi / 360) :=
      Real.sin_le_sin_of_le_of_le_pi_div_two (by linarith) (by linarith) (by linarith)
    refine le_trans ?_ hmono
    refine le_trans ?_ (sin_poly_lb (x := 3.141592 / 360) (by norm_num) (by norm_num))
    norm_num
  · have hmono : Real.sin (Real.pi / 360) ≤ Real.sin (3.141593 / 360) :=
      Real.sin_le_sin_of_le_of_le_pi_div_two (by linarith) (by linarith) (by linarith)
    refine le_trans hmono ?_
    refine le_trans (sin_poly_ub (x := 3.141593 / 360) (by norm_num) (by norm_num)) ?_
    norm_num

/-- `cos (pi/180)` with the pi interval folded in. -/
theorem cos_pi180_interval :
    (0.9998476864236 : ℝ) ≤ Real.cos (Real.pi / 180) ∧
    Real.cos (Real.pi / 180) ≤ 0.9998476961864 := by
  have hpil := Real.pi_gt_d6
  have hpiu := Real.pi_lt_d6
  have hpip := Real.pi_pos
  constructor
  · have hmono : Real.cos (3.141593 / 180) ≤ Real.cos (Real.pi / 180) :=
      Real.cos_le_cos_of_nonneg_of_le_pi (by linarith) (by linarith) (by linarith)
    refine le_trans ?_ hmono
    refine le_trans ?_ (cos_poly_lb (x := 3.141593 / 180) (by norm_num) (by norm_num))
    norm_num
  · have hmono : Real.cos (Real.pi / 180) ≤ Real.cos (3.141592 / 180) :=
      Real.cos_le_cos_of_nonneg_of_le_pi (by linarith) (by linarith) (by linarith)
    refine le_trans hmono ?_
    refine le_trans (cos_poly_ub (x := 3.141592 / 180) (by norm_num) (by norm_num)) ?_
    norm_num

/-- `arcsin (sqrt A)` for any `A` inside the haversine interval of the
(0,0)-(1,1) scenario. -/
theorem arcsin_sqrt_interval {A : ℝ}
    (hA1 : (0.0001522931706 : ℝ) ≤ A) (hA2 : A ≤ 0.0001522932895) :
    (0.0123407 : ℝ) ≤ Real.arcsin (Real.sqrt A) ∧
    Real.arcsin (Real.sqrt A) ≤ 0.0123425 := by
  have hpil := Real.pi_gt_d6
  have h0A : (0 : ℝ) ≤ A := by linarith
  constructor
  · have hsq : (0.0123407 : ℝ) ≤ Real.sqrt A := by
      rw [show (0.0123407 : ℝ) = Real.sqrt (0.0123407 ^ 2) from
        (Real.sqrt_sq (by norm_num)).symm]
      exact Real.sqrt_le_sqrt (by nlinarith)
    have hsin : Real.sin 0.0123407 ≤ Real.sqrt A :=
      le_trans (Real.sin_lt (by norm_num)).le hsq
    have hm := Real.monotone_arcsin hsin
    rwa [Real.arcsin_sin (by linarith) (by linarith)] at hm
  · have hq : (0.0123421854207 : ℝ) ≤ Real.sin 0.0123425 :=
      le_trans (by norm_num) (sin_poly_lb (by norm_num) (by norm_num))
    have hsq : Real.sqrt A ≤ Real.sin 0.0123425 := by
      refine le_trans ?_ hq
      rw [show (0.0123421854207 : ℝ) = Real.sqrt (0.0123421854207 ^ 2) from
        (Real.sqrt_sq (by norm_num)).symm]
      exact Real.sqrt_le_sqrt (by nlinarith)
    have hm := Real.monotone_arcsin hsq
    rwa [Real.arcsin_sin (by linarith) (by linarith)] at hm

/-- The haversine distance computed from (0,0) to (1,1) lies in
`[84.90, 84.92]` nautical miles. -/
theorem calcDistance_known_interval :
    (84.90 : ℝ) ≤ CalcDistance ⟨0, 0⟩ ⟨1, 1⟩ ∧
    CalcDistance ⟨0, 0⟩ ⟨1, 1⟩ ≤ 84.92 := by
  have e1 : ((1 : ℝ) - 0) * Real.pi / 180 / 2 = Real.pi / 360 := by ring
  have e2 : ((0 : ℝ)) * Real.pi / 180 = 0 := by ring
  have e3 : ((1 : ℝ)) * Real.pi / 180 = Real.pi / 180 := by ring
  simp only [CalcDistance, e1, e2, e3, Real.cos_zero, one_mul]
  set s := Real.sin (Real.pi / 360) with hs
  set c := Real.cos (Real.pi / 180) with hc
  obtain ⟨hs1, hs2⟩ := sin_pi360_interval
  obtain ⟨hc1, hc2⟩ := cos_pi180_interval
  rw [← hs] at hs1 hs2
  rw [← hc] at hc1 hc2
  have hss_l : (0.0087265333804 : ℝ) ^ 2 ≤ s * s := by nlinarith
  have hss_u : s * s ≤ (0.0087265367623 : ℝ) ^ 2 := by nlinarith
  have hA1 : (0.0001522931706 : ℝ) ≤ s * s + c * s * s := by nlinarith
  have hA2 : s * s + c * s * s ≤ 0.0001522932895 := by nlinarith
  set A := s * s + c * s * s with hA
  have h0A : (0 : ℝ) ≤ A := by linarith
  have hApos : (0 : ℝ) < 1 - A := by linarith
  have hsqrtpos : 0 < Real.sqrt (1 - A) := Real.sqrt_pos.2 hApos
  have hat : atan2 (Real.sqrt A) (Real.sqrt (1 - A)) =
      Real.arctan (Real.sqrt A / Real.sqrt (1 - A)) := by
    rw [atan2, if_pos hsqrtpos]
  have hlt1 : Real.sqrt A < 1 := by
    have h := Real.sqrt_lt_sqrt h0A (show A < 1 by linarith)
    simpa using h
  have harcsin : Real.arcsin (Real.sqrt A) =
      Real.arctan (Real.sqrt A / Real.sqrt (1 - Real.sqrt A ^ 2)) :=
    Real.arcsin_eq_arctan ⟨by linarith [Real.sqrt_nonneg A], hlt1⟩
  rw [Real.sq_sqrt h0A] at harcsin
  rw [hat, ← harcsin]
  obtain ⟨harc1, harc2⟩ := arcsin_sqrt_interval hA1 hA2
  have hK : ∀ z : ℝ, EarthRadiusMeters * (2 * z) * NauticalMilesPerMeter =
      6880.125723 * z := by
    intro z
    rw [EarthRadiusMeters, NauticalMilesPerMeter]
    norm_num
    ring
  rw [hK]
  constructor <;> nlinarith

/-- The bearing computed from (0,0) to (1,1) is exactly
`arctan (cos 1) * 180 / pi` degrees. -/
theorem calcBearing_known_eq :
    CalcBearing ⟨0, 0⟩ ⟨1, 1⟩ = Real.arctan (Real.cos 1) * 180 / Real.pi := by
  have hs1 : 0 < Real.sin 1 :=
    Real.sin_pos_of_pos_of_lt_pi one_pos (by linarith [Real.pi_gt_three])
  have e1 : (1 : ℝ) - 0 = 1 := by norm_num
  simp only [CalcBearing, e1, Real.cos_zero, Real.sin_zero, one_mul, zero_mul, sub_zero]
  have hat : atan2 (Real.sin 1 * Real.cos 1) (Real.sin 1) = Real.arctan (Real.cos 1) := by
    rw [atan2, if_pos hs1, mul_comm (Real.sin 1) (Real.cos 1), mul_div_assoc,
      div_self hs1.ne', mul_one]
  rw [hat]
  obtain ⟨hd1, hd2⟩ := bearing_deg_interval
  rw [goMod_sub (by linarith) (by linarith)]
  ring

/-- The bearing computed back from (1,1) to (0,0) is exactly
`270 - arctan (cos 1) * 180 / pi` degrees. -/
theorem calcBearing_reverse_eq :
    CalcBearing ⟨1, 1⟩ ⟨0, 0⟩ = 270 - Real.arctan (Real.cos 1) * 180 / Real.pi := by
  have hs1 : 0 < Real.sin 1 :=
    Real.sin_pos_of_pos_of_lt_pi one_pos (by linarith [Real.pi_gt_three])
  have hc1 : 0 < Real.cos 1 := Real.cos_one_pos
  have e1 : (0 : ℝ) - 1 = -1 := by norm_num
  simp only [CalcBearing, e1, Real.cos_zero, Real.sin_zero, Real.cos_neg, Real.sin_neg,
    mul_zero, mul_one, one_mul, zero_sub]
  have hxneg : -(Real.sin 1 * Real.cos 1) < 0 := by nlinarith
  have hyneg : -Real.sin 1 < 0 := by linarith
  have hat : atan2 (-Real.sin 1) (-(Real.sin 1 * Real.cos 1)) =
      Real.arctan ((-Real.sin 1) / (-(Real.sin 1 * Real.cos 1))) - Real.pi := by
    rw [atan2, if_neg (not_lt.mpr hxneg.le), if_pos hxneg, if_neg (not_le.mpr hyneg)]
  have hdiv : (-Real.sin 1) / (-(Real.sin 1 * Real.cos 1)) = (Real.cos 1)⁻¹ := by
    rw [neg_div_neg_eq]
    field_simp
  rw [hat, hdiv, Real.arctan_inv_of_pos hc1]
  have hpip := Real.pi_pos
  have hdegform : (Real.pi / 2 - Real.arctan (Real.cos 1) - Real.pi) * 180 / Real.pi + 360 =
      270 - Real.arctan (Real.cos 1) * 180 / Real.pi := by
    field_simp
    ring
  rw [hdegform]
  obtain ⟨hd1, hd2⟩ := bearing_deg_interval
  rw [goMod_id (by linarith) (by linarith)]

/-! ## C5: the known-value vector scenario -/

/-- C5.  The vector from (0,0) to (1,1) has distance within 0.01 of 84.91
nautical miles and bearing within 0.01 of 28.38 degrees, and the reverse
vector has the same distance within 0.01 and bearing within 0.01 of 241.62
degrees — as the repository's own test expects of these coordinates. -/
theorem c5_known_vector :
    |CalcDistance ⟨0, 0⟩ ⟨1, 1⟩ - 84.91| ≤ 0.01 ∧
    |CalcBearing ⟨0, 0⟩ ⟨1, 1⟩ - 28.38| ≤ 0.01 ∧
    |CalcDistance ⟨1, 1⟩ ⟨0, 0⟩ - 84.91| ≤ 0.01 ∧
    |CalcBearing ⟨1, 1⟩ ⟨0, 0⟩ - 241.62| ≤ 0.01 := by
  obtain ⟨h1, h2⟩ := calcDistance_known_interval
  obtain ⟨hb1, hb2⟩ := bearing_deg_interval
  have hsym : CalcDistance ⟨1, 1⟩ ⟨0, 0⟩ = CalcDistance ⟨0, 0⟩ ⟨1, 1⟩ :=
    calcDistance_comm _ _
  refine ⟨?_, ?_, ?_, ?_⟩
  · rw [abs_le]
    constructor <;> linarith
  · rw [calcBearing_known_eq, abs_le]
    constructor <;> linarith
  · rw [hsym, abs_le]
    constructor <;> linarith
  · rw [calcBearing_reverse_eq, abs_le]
    constructor <;> linarith

end FlightTracker
